import Mathlib

/-!
Shallow embedding of the MLS-vs-CAMA comparison engine
(`src/mls_cama_comparison.py`).

Scalar cell values are modelled by `Value`: real numbers as exact
rationals, strings, and `null` (covering both Python `None` and float
NaN, which the script treats identically through `pd.isna`).  Pandas
numeric coercion of a scalar is modelled by `toNumericRaise`
(`errors='raise'`: an exception is `none`, a NaN result is `some none`)
and `toNumericCoerce` (`errors='coerce'`: NaN or failure is `none`).
The float tolerance constants (`0.01`, numpy's default relative epsilon
`1e-9`) are modelled as exact rationals.  The module-level globals
`NUMERIC_TOLERANCE` and `SKIP_ZERO_VALUES` are threaded through the
engine as explicit parameters (the source reads them from module scope);
the source's configured values are the constants below.  The report
layer (Excel writing, hyperlinks, address passthrough columns) is out of
scope; mismatch, perfect-match and missing-record rows keep the fields
the comparison logic itself computes.
-/

inductive Value where
  | num (q : ℚ)
  | str (s : String)
  | null
deriving DecidableEq

/-- Python `str.lower()` on the character list of a string. -/
def lowerStr (s : String) : String := ⟨s.data.map Char.toLower⟩


/-- Addition on ℚ written through `Rat.divInt` (the library's `Rat.add` is
irreducible, which would block kernel evaluation); `qAdd_eq` below proves it
equal to `+`. -/
def qAdd (a b : ℚ) : ℚ := Rat.divInt (a.num * b.den + b.num * a.den) (a.den * b.den)

/-- Subtraction on ℚ through `Rat.divInt`; `qSub_eq` proves it equal to `-`. -/
def qSub (a b : ℚ) : ℚ := Rat.divInt (a.num * b.den - b.num * a.den) (a.den * b.den)

/-- Multiplication on ℚ through `Rat.divInt`; `qMul_eq` proves it equal to `*`. -/
def qMul (a b : ℚ) : ℚ := Rat.divInt (a.num * b.num) (a.den * b.den)

/-- `|q|`, written executably so that concrete values kernel-reduce;
`absQ_eq` proves it equal to `|q|`. -/
def absQ (q : ℚ) : ℚ := if q.num < 0 then Rat.divInt (-q.num) q.den else q

/-- Python `str.strip()`: drop whitespace from both ends. -/
def stripStr (s : String) : String :=
  ⟨((s.data.dropWhile Char.isWhitespace).reverse.dropWhile Char.isWhitespace).reverse⟩

def allDigits (cs : List Char) : Bool := cs.all (fun c => c.isDigit)

def digitsVal (cs : List Char) : Nat := cs.foldl (fun a c => 10 * a + (c.toNat - 48)) 0

/-- Unsigned decimal literal: `digits`, `digits.digits`, `.digits` or `digits.`. -/
def parseUnsignedQ (cs : List Char) : Option ℚ :=
  let ip := cs.takeWhile (fun c => decide (c ≠ '.'))
  let rest := cs.dropWhile (fun c => decide (c ≠ '.'))
  match rest with
  | [] => if (!cs.isEmpty) && allDigits cs then some ((digitsVal cs : ℚ)) else none
  | '.' :: frac =>
    if ip.isEmpty && frac.isEmpty then none
    else if allDigits ip && allDigits frac then
      some (Rat.divInt ((digitsVal ip : Int) * 10 ^ frac.length + (digitsVal frac : Int))
        ((10 : Int) ^ frac.length))
    else none
  | _ => none

/-- `pd.to_numeric` on a string scalar with `errors='raise'`: `none` is an
exception, `some none` is NaN (the string `"nan"`), `some (some q)` a number. -/
def parseNumR (s : String) : Option (Option ℚ) :=
  let t := stripStr s
  if lowerStr t = "nan" then some none
  else
    match t.data with
    | '-' :: rest => (parseUnsignedQ rest).map (fun q => some (-q))
    | '+' :: rest => (parseUnsignedQ rest).map (fun q => some q)
    | cs => (parseUnsignedQ cs).map (fun q => some q)

/-- Python `str(...)` rendering of a scalar (rationals rendered by `toString`). -/
def pyStr : Value → String
  | .num q => toString q
  | .str s => s
  | .null => "nan"

/-- `pd.isna` on a scalar. -/
def isNA : Value → Bool
  | .null => true
  | _ => false

/-- The script's blank test: `pd.isna(v) or (isinstance(v, str) and v.strip() == '')`. -/
def isBlank : Value → Bool
  | .null => true
  | .str s => decide (stripStr s = "")
  | .num _ => false

/-- `pd.to_numeric(v, errors='raise')` on a scalar `Value`. -/
def toNumericRaise : Value → Option (Option ℚ)
  | .num q => some (some q)
  | .null => some none
  | .str s => parseNumR s

/-- `pd.to_numeric(v, errors='coerce')` on a scalar `Value` (`none` = NaN). -/
def toNumericCoerce (v : Value) : Option ℚ :=
  match toNumericRaise v with
  | some (some q) => some q
  | _ => none

/-- numpy's default relative epsilon `rtol=1e-9` used by `np.isclose`. -/
def relEps : ℚ := Rat.divInt 1 1000000000

/-- The script's global `NUMERIC_TOLERANCE = 0.01`. -/
def NUMERIC_TOLERANCE : ℚ := Rat.divInt 1 100

/-- The script's global `SKIP_ZERO_VALUES = True`. -/
def SKIP_ZERO_VALUES : Bool := true

/-- `str(val).strip().lower() if pd.notna(val) else ''` (used by the
string-comparison fallback of `values_equal`). -/
def strNorm (v : Value) : String :=
  if isNA v then "" else lowerStr (stripStr (pyStr v))

/-- `values_equal(val1, val2)` from the script (global tolerance made a
parameter).  Numeric path: both-NaN is equal, exactly-one-NaN unequal,
two reals compared by `np.isclose(num1, num2, rtol=1e-9, atol=tol)`,
i.e. `|num1 - num2| <= atol + rtol * |num2|`.  A coercion exception on
either side falls back to case-insensitive trimmed string equality. -/
def values_equal (val1 val2 : Value) (tol : ℚ) : Bool :=
  match toNumericRaise val1, toNumericRaise val2 with
  | some num1, some num2 =>
    match num1, num2 with
    | none, none => true
    | none, some _ => false
    | some _, none => false
    | some a, some b => decide (absQ (qSub a b) ≤ qAdd tol (qMul relEps (absQ b)))
  | _, _ => decide (strNorm val1 = strNorm val2)

/-- A categorical comparison mapping (one entry of `COLUMNS_TO_COMPARE_CATEGORICAL`). -/
structure CatRule where
  mls_col : String
  cama_col : String
  mls_check_contains : String
  cama_expected_if_true : Value
  cama_expected_if_false : Value
  case_sensitive : Bool
deriving DecidableEq

def leadsWith : List Char → List Char → Bool
  | [], _ => true
  | _ :: _, [] => false
  | a :: as, b :: bs => (a == b) && leadsWith as bs

def hasSub (needle : List Char) : List Char → Bool
  | [] => needle.isEmpty
  | c :: t => leadsWith needle (c :: t) || hasSub needle t

/-- Python's substring operator `needle in hay`. -/
def strContains (hay needle : String) : Bool := hasSub needle.data hay.data

/-- The expected CAMA value derived inside `categorical_match` (and recomputed
at lines 520-529 for reporting): search the MLS value, as a trimmed string,
for the marker text, honouring `case_sensitive`. -/
def categoricalExpected (mls_val : Value) (m : CatRule) : Value :=
  let mls_str := if isNA mls_val then "" else stripStr (pyStr mls_val)
  let mls_str2 := if m.case_sensitive then mls_str else lowerStr mls_str
  let check_text2 := if m.case_sensitive then m.mls_check_contains else lowerStr m.mls_check_contains
  if strContains mls_str2 check_text2 then m.cama_expected_if_true else m.cama_expected_if_false

/-- `categorical_match(mls_val, cama_val, mapping)` from the script.  Both the
actual CAMA value and the derived expected value are coerced with
`errors='coerce'`; both-NaN is a match, exactly-one-NaN a non-match, two
reals go through `np.isclose`.  The `except:` fallback to raw string
comparison in the source is unreachable for scalar inputs, since
`pd.to_numeric(scalar, errors='coerce')` does not raise; the embedding is
the reachable logic. -/
def categorical_match (mls_val cama_val : Value) (m : CatRule) (tol : ℚ) : Bool :=
  let expected_cama := categoricalExpected mls_val m
  match toNumericCoerce cama_val, toNumericCoerce expected_cama with
  | none, none => true
  | none, some _ => false
  | some _, none => false
  | some a, some b => decide (absQ (qSub a b) ≤ qAdd tol (qMul relEps (absQ b)))

/-- Round to the nearest integer, ties to even (Python float formatting),
computed on the numerator and denominator: `f = ⌊q⌋` and the fractional
remainder `q - f = rnum/den` is compared with `1/2` by cross-multiplying. -/
def roundHalfEven (q : ℚ) : ℤ :=
  let f := q.num.ediv q.den
  let rnum := q.num - f * q.den
  if 2 * rnum < (q.den : Int) then f
  else if (q.den : Int) < 2 * rnum then f + 1
  else if f % 2 = 0 then f else f + 1

/-- Insert a comma after every third character, counting from the head of a
(reversed) digit list. -/
def commaRevGo : List Char → Nat → List Char
  | [], _ => []
  | c :: rest, k =>
    if k = 3 then ',' :: c :: commaRevGo rest 1
    else c :: commaRevGo rest (k + 1)

/-- Thousands grouping of a digit string, as Python's `{:,}` format. -/
def groupDigits (s : String) : String := ⟨(commaRevGo s.data.reverse 0).reverse⟩

def pad2 (n : Nat) : String := if n < 10 then "0" ++ toString n else toString n

def fmtCents (n : Nat) : String :=
  groupDigits (toString (n / 100)) ++ "." ++ pad2 (n % 100)

/-- Python `f"{diff:,.2f}"`: round `|q| * 100` half-to-even to whole cents,
print with two decimals and thousands separators, sign first. -/
def fmt2 (q : ℚ) : String :=
  if q.num < 0 then "-" ++ fmtCents (roundHalfEven (Rat.divInt (-q.num * 100) q.den)).toNat
  else fmtCents (roundHalfEven (Rat.divInt (q.num * 100) q.den)).toNat

/-- `calculate_difference(val1, val2)` from the script: coerce both with
`errors='raise'`; on exception return `"Text difference"`, on a NaN on
either side `"N/A"`, otherwise `num1 - num2` formatted as `{:,.2f}`. -/
def calculate_difference (val1 val2 : Value) : String :=
  match toNumericRaise val1, toNumericRaise val2 with
  | some num1, some num2 =>
    match num1, num2 with
    | some a, some b => fmt2 (qSub a b)
    | _, _ => "N/A"
  | _, _ => "Text difference"

/-- One entry of `COLUMNS_TO_COMPARE` (a side-A field against a side-B field). -/
structure DirectRule where
  mls_col : String
  cama_col : String
deriving DecidableEq

/-- One entry of `COLUMNS_TO_COMPARE_SUM` (a side-A field against the sum of
several side-B fields). -/
structure SumRule where
  mls_col : String
  cama_cols : List String
deriving DecidableEq

/-- One row of the value-mismatch output (the engine-computed fields; report
decoration such as address columns and hyperlinks is out of scope).
`difference` is present for direct and sum rules, `expectedCama` for
categorical rules. -/
structure Mismatch where
  parcelId : Value
  fieldMLS : String
  fieldCAMA : String
  mlsValue : Value
  camaValue : Value
  difference : Option String
  expectedCama : Option Value
deriving DecidableEq

/-- One row of the perfect-match output: the key, `len(fields_compared)` and
the list of compared field names. -/
structure PerfectRec where
  parcelId : Value
  fieldsCompared : Nat
  fieldsList : List String
deriving DecidableEq

/-- One row of the missing-in-CAMA output (key plus the `Listing #` and
`Closed Date` passthrough values). -/
structure MissingInCamaRec where
  parcelId : Value
  listingNumber : Value
  closedDate : Value
deriving DecidableEq

/-- The engine configuration: the `UNIQUE_ID_COLUMN` mapping, the three rule
lists, and the module globals `NUMERIC_TOLERANCE` and `SKIP_ZERO_VALUES`
threaded as parameters. -/
structure CompareConfig where
  mls_id_col : String
  cama_id_col : String
  direct : List DirectRule
  sums : List SumRule
  cats : List CatRule
  tol : ℚ
  skipZero : Bool

/-- The four outcome tables of `compare_data_enhanced` (the `matched_df`
inner-merge echo returned by the script is derivable and not modelled). -/
structure CompareResult where
  missing_in_cama : List MissingInCamaRec
  missing_in_mls : List Value
  value_mismatches : List Mismatch
  perfect_matches : List PerfectRec
deriving DecidableEq

/-- A dataset: the DataFrame's column list and its rows, each row a total
lookup from column name to cell value (`null` off the listed columns). -/
structure Dataset where
  cols : List String
  rows : List (String → Value)

/-- The `_merge` indicator of the outer merge. -/
inductive MergeTag where
  | left_only
  | right_only
  | both
deriving DecidableEq

/-- One row of the outer-merged frame: its `_merge` tag and its cell lookup. -/
structure MergedRow where
  tag : MergeTag
  get : String → Value

/-- Outcome of one direct rule on one matched row, lines 329-394 of the
script: `(marked-as-compared, emitted mismatch)`.  Missing columns and the
blank test skip the field before it is marked; the skip-zero test fires
after the field is marked. -/
def directOutcome (cols : List String) (skipZero : Bool) (tol : ℚ)
    (recId : Value) (row : String → Value) (r : DirectRule) :
    Bool × Option Mismatch :=
  if ¬ (r.mls_col ∈ cols ∧ r.cama_col ∈ cols) then (false, none)
  else
    let mls_val := row r.mls_col
    let cama_val := row r.cama_col
    if isBlank mls_val || isBlank cama_val then (false, none)
    else if skipZero && (decide (toNumericCoerce mls_val = some 0) || decide (toNumericCoerce cama_val = some 0)) then (true, none)
    else if values_equal mls_val cama_val tol then (true, none)
    else (true, some
      { parcelId := recId, fieldMLS := r.mls_col, fieldCAMA := r.cama_col,
        mlsValue := mls_val, camaValue := cama_val,
        difference := some (calculate_difference mls_val cama_val), expectedCama := none })

/-- `"SUM(" + ", ".join(cama_cols) + ")"`, the reported field name of a sum rule. -/
def sumFieldName (r : SumRule) : String :=
  "SUM(" ++ String.intercalate (", ") r.cama_cols ++ ")"

/-- `cama_sum` of lines 423-432: fold the non-NA side-B values into a sum with
`pd.to_numeric(val, errors='coerce')`; one NaN coercion poisons the whole sum
(`none`). -/
def camaSumOf (row : String → Value) (cs : List String) : Option ℚ :=
  ((cs.map row).filter (fun v => !(isNA v))).foldl
    (fun acc v =>
      match acc, toNumericCoerce v with
      | some a, some b => some (qAdd a b)
      | _, _ => none)
    (some 0)

/-- Outcome of one sum rule on one matched row, lines 396-481 of the script.
Skips before marking: missing columns, blank side-A value, all side-B values
NA.  After marking: the skip-zero test, then `values_equal` against the sum
(a NaN sum is the `null` value). -/
def sumOutcome (cols : List String) (skipZero : Bool) (tol : ℚ)
    (recId : Value) (row : String → Value) (r : SumRule) :
    Bool × Option Mismatch :=
  if ¬ (r.mls_col ∈ cols) then (false, none)
  else if ¬ (∀ c ∈ r.cama_cols, c ∈ cols) then (false, none)
  else
    let mls_val := row r.mls_col
    if isBlank mls_val then (false, none)
    else if (r.cama_cols.map row).all (fun v => isNA v) then (false, none)
    else
      let cama_sum := camaSumOf row r.cama_cols
      if skipZero && (decide (toNumericCoerce mls_val = some 0) || decide (cama_sum = some 0)) then (true, none)
      else
        let sum_val : Value := match cama_sum with
          | some q => .num q
          | none => .null
        if values_equal mls_val sum_val tol then (true, none)
        else (true, some
          { parcelId := recId, fieldMLS := r.mls_col, fieldCAMA := sumFieldName r,
            mlsValue := mls_val, camaValue := sum_val,
            difference := some (calculate_difference mls_val sum_val), expectedCama := none })

/-- Outcome of one categorical rule on one matched row, lines 484-561 of the
script: skip (unmarked) on missing columns or a blank value on either side,
otherwise mark and evaluate `categorical_match`. -/
def catOutcome (cols : List String) (tol : ℚ) (recId : Value)
    (row : String → Value) (m : CatRule) : Bool × Option Mismatch :=
  if ¬ (m.mls_col ∈ cols) then (false, none)
  else if ¬ (m.cama_col ∈ cols) then (false, none)
  else
    let mls_val := row m.mls_col
    let cama_val := row m.cama_col
    if isBlank mls_val then (false, none)
    else if isBlank cama_val then (false, none)
    else if categorical_match mls_val cama_val m tol then (true, none)
    else (true, some
      { parcelId := recId, fieldMLS := m.mls_col, fieldCAMA := m.cama_col,
        mlsValue := mls_val, camaValue := cama_val,
        difference := none, expectedCama := some (categoricalExpected mls_val m) })

/-- Fold a rule list over the `(fields_compared, record_mismatches)`
accumulator: a marked rule appends its side-A field name, an emitted
mismatch is appended to the record's mismatch list. -/
def foldRules {α : Type} (f : α → Bool × Option Mismatch) (name : α → String)
    (rules : List α) (acc : List String × List Mismatch) :
    List String × List Mismatch :=
  rules.foldl (fun a r =>
    (a.1 ++ (if (f r).1 then [name r] else []), a.2 ++ (f r).2.toList)) acc

/-- The per-matched-row body of the loop: direct rules, then sum rules, then
categorical rules, accumulating compared fields and mismatches. -/
def processBoth (cfg : CompareConfig) (cols : List String)
    (row : String → Value) : List String × List Mismatch :=
  let recId := row cfg.cama_id_col
  let a1 := foldRules (directOutcome cols cfg.skipZero cfg.tol recId row) (fun r => r.mls_col) cfg.direct ([], [])
  let a2 := foldRules (sumOutcome cols cfg.skipZero cfg.tol recId row) (fun r => r.mls_col) cfg.sums a1
  foldRules (catOutcome cols cfg.tol recId row) (fun m => m.mls_col) cfg.cats a2

/-- The column list of dataset A after `rename(columns={mls_id_col: cama_id_col})`. -/
def renameCols (cfg : CompareConfig) (dfA : Dataset) : List String :=
  dfA.cols.map (fun c => if c = cfg.mls_id_col then cfg.cama_id_col else c)

/-- The merged frame's columns: renamed A columns then B's non-key columns. -/
def mergedCols (cfg : CompareConfig) (dfA dfB : Dataset) : List String :=
  renameCols cfg dfA ++ dfB.cols.filter (fun c => decide (c ≠ cfg.cama_id_col))

/-- Cell lookup of an A-row after the key-column rename. -/
def getRenamed (cfg : CompareConfig) (ra : String → Value) : String → Value :=
  fun c => if c = cfg.cama_id_col then ra cfg.mls_id_col else ra c

/-- A merged row for an A-row with no key match in B: B-side cells are NaN. -/
def leftRow (cfg : CompareConfig) (aCols : List String) (ra : String → Value) : MergedRow :=
  { tag := .left_only,
    get := fun c => if c ∈ aCols then getRenamed cfg ra c else .null }

/-- A merged row for a key present on both sides. -/
def bothRow (cfg : CompareConfig) (aCols bCols : List String) (ra rb : String → Value) : MergedRow :=
  { tag := .both,
    get := fun c =>
      if c ∈ aCols then getRenamed cfg ra c
      else if c ∈ bCols then rb c
      else .null }

/-- A merged row for a B-row with no key match in A: A-side cells are NaN,
the key comes from B. -/
def rightRow (cfg : CompareConfig) (bCols : List String) (rb : String → Value) : MergedRow :=
  { tag := .right_only,
    get := fun c =>
      if c = cfg.cama_id_col then rb cfg.cama_id_col
      else if c ∈ bCols then rb c
      else .null }

/-- `pd.merge(df_mls_renamed, df_cama, on=key, how='outer', indicator=True)`:
every A-row pairs with every B-row sharing its key (left-only if none),
followed by the unmatched B-rows; with `sort=False` pandas keeps left order
first and appends right-only rows. -/
def mergeOuter (cfg : CompareConfig) (dfA dfB : Dataset) : List MergedRow :=
  let aCols := renameCols cfg dfA
  let bCols := dfB.cols.filter (fun c => decide (c ≠ cfg.cama_id_col))
  (dfA.rows.map (fun ra =>
    let ms := dfB.rows.filter (fun rb => decide (rb cfg.cama_id_col = ra cfg.mls_id_col))
    if ms.isEmpty then [leftRow cfg aCols ra]
    else ms.map (fun rb => bothRow cfg aCols bCols ra rb))).flatten
  ++ (dfB.rows.filter (fun rb =>
      !(dfA.rows.any (fun ra => decide (ra cfg.mls_id_col = rb cfg.cama_id_col))))).map (rightRow cfg bCols)

/-- The `left_only` branch of the loop (lines 298-307): key plus the
`Listing #` and `Closed Date` passthrough cells. -/
def leftEntry (cfg : CompareConfig) (row : MergedRow) : Option MissingInCamaRec :=
  if row.tag = .left_only then
    some { parcelId := row.get cfg.cama_id_col,
           listingNumber := row.get ("Listing #"),
           closedDate := row.get ("Closed Date") }
  else none

/-- The `right_only` branch of the loop (lines 309-310): the key only. -/
def rightEntry (cfg : CompareConfig) (row : MergedRow) : Option Value :=
  if row.tag = .right_only then some (row.get cfg.cama_id_col) else none

/-- The mismatches one merged row contributes (only `both` rows compare). -/
def rowMms (cfg : CompareConfig) (cols : List String) (row : MergedRow) : List Mismatch :=
  if row.tag = .both then (processBoth cfg cols row.get).2 else []

/-- The perfect-match entry of one merged row, line 564: a `both` row with no
mismatches and a nonempty compared-field list. -/
def perfEntry (cfg : CompareConfig) (cols : List String) (row : MergedRow) : Option PerfectRec :=
  if row.tag = .both ∧ (processBoth cfg cols row.get).2 = [] ∧ (processBoth cfg cols row.get).1 ≠ [] then
    some { parcelId := row.get cfg.cama_id_col,
           fieldsCompared := (processBoth cfg cols row.get).1.length,
           fieldsList := (processBoth cfg cols row.get).1 }
  else none

/-- One iteration of `for index, row in merged_df.iterrows()`. -/
def rowStep (cfg : CompareConfig) (cols : List String) (acc : CompareResult) (row : MergedRow) : CompareResult :=
  { missing_in_cama := acc.missing_in_cama ++ (leftEntry cfg row).toList,
    missing_in_mls := acc.missing_in_mls ++ (rightEntry cfg row).toList,
    value_mismatches := acc.value_mismatches ++ rowMms cfg cols row,
    perfect_matches := acc.perfect_matches ++ (perfEntry cfg cols row).toList }

/-- The whole loop over the merged rows, starting from empty output lists. -/
def compareRows (cfg : CompareConfig) (cols : List String) (rows : List MergedRow) : CompareResult :=
  rows.foldl (rowStep cfg cols) { missing_in_cama := [], missing_in_mls := [], value_mismatches := [], perfect_matches := [] }

/-- `compare_data_enhanced` (lines 240-596).  The early-return guards, in
source order: an empty `cols_to_compare_mapping` (the direct-rule list), the
MLS key column missing, the CAMA key column missing; each prints an error and
returns empty frames, modelled as `none`.  (The `df is None` and incomplete
id-mapping guards are inexpressible here: datasets and the key spec always
exist in the embedding.)  Otherwise the merged rows are classified. -/
def compare_data_enhanced (cfg : CompareConfig) (dfA dfB : Dataset) : Option CompareResult :=
  if cfg.direct = [] then none
  else if cfg.mls_id_col ∉ dfA.cols then none
  else if cfg.cama_id_col ∉ dfB.cols then none
  else some (compareRows cfg (mergedCols cfg dfA dfB) (mergeOuter cfg dfA dfB))

/-- The five-way per-merged-row outcome classification of the spec. -/
inductive RowBucket where
  | missingInB
  | missingInA
  | mismatched
  | perfect
  | skipped
deriving DecidableEq

/-- Which bucket one merged row falls into. -/
def rowBucket (cfg : CompareConfig) (cols : List String) (row : MergedRow) : RowBucket :=
  match row.tag with
  | .left_only => .missingInB
  | .right_only => .missingInA
  | .both =>
    if (processBoth cfg cols row.get).2 ≠ [] then .mismatched
    else if (processBoth cfg cols row.get).1 ≠ [] then .perfect
    else .skipped

/-- `df.duplicated(subset=[id_column], keep=False)` flags: a row is flagged
exactly when some other position holds the same key value. -/
def markDups (idCol : String) : List Value → List (String → Value) → List ((String → Value) × Bool)
  | _, [] => []
  | before, r :: rest =>
    (r, decide (r idCol ∈ before) || decide (r idCol ∈ rest.map (fun r2 => r2 idCol)))
      :: markDups idCol (before ++ [r idCol]) rest

/-- `find_duplicate_ids(df, id_column, source_name)` (lines 159-173): on an
empty frame return an empty frame, otherwise the rows whose key occurs at
some other position too (printing and the report-only sort are not part of
the returned value: the function returns `duplicate_ids` unsorted). -/
def find_duplicate_ids (df : Dataset) (idCol : String) : List (String → Value) :=
  if df.rows.isEmpty then []
  else ((markDups idCol [] df.rows).filter (fun p => p.2)).map (fun p => p.1)

/-- A row literal: lookup over an association list, `null` elsewhere. -/
def rowOf (l : List (String × Value)) : String → Value :=
  fun c => (((l.find? (fun p => decide (p.1 = c))).map (fun p => p.2)).getD .null)

/-- Count of merged rows falling into a given outcome bucket. -/
def bucketCount (cfg : CompareConfig) (cols : List String) (rows : List MergedRow) (b : RowBucket) : Nat :=
  rows.countP (fun r => decide (rowBucket cfg cols r = b))

/-- The rational `(10^9 + 1) / 10^11 = 0.01000000001`, slightly above the
absolute tolerance `0.01`; the relative term `1e-9 * |its value|` closes the
gap in one comparison direction but not the other. -/
def bigRat : ℚ := Rat.divInt (10 ^ 9 + 1) (10 ^ 11)

/-- Fixture (C1): one direct rule `F` against `G`, skip-zero enabled. -/
def cfgC1 : CompareConfig :=
  { mls_id_col := ("Parcel Number"), cama_id_col := ("PARID"),
    direct := [⟨("F"), ("G")⟩], sums := [], cats := [],
    tol := NUMERIC_TOLERANCE, skipZero := true }

/-- Fixture (C1): one MLS record with key 1 and `F = 0`. -/
def dfAC1 : Dataset :=
  ⟨[("Parcel Number"), ("F")], [rowOf [(("Parcel Number"), .num 1), (("F"), .num 0)]]⟩

/-- Fixture (C1): one CAMA record with key 1 and `G = 7`. -/
def dfBC1 : Dataset :=
  ⟨[("PARID"), ("G")], [rowOf [(("PARID"), .num 1), (("G"), .num 7)]]⟩

/-- Fixture (C2 witness): two direct rules, skip-zero enabled. -/
def cfgC2w : CompareConfig :=
  { mls_id_col := ("Parcel Number"), cama_id_col := ("PARID"),
    direct := [⟨("F"), ("G")⟩], sums := [], cats := [],
    tol := NUMERIC_TOLERANCE, skipZero := true }

/-- Fixture (C2 witness): three MLS records: key 1 (mismatching), key 2
(unmatched), key 4 (all fields blank). -/
def dfAC2w : Dataset :=
  ⟨[("Parcel Number"), ("F")],
   [rowOf [(("Parcel Number"), .num 1), (("F"), .num 10)],
    rowOf [(("Parcel Number"), .num 2), (("F"), .num 3)],
    rowOf [(("Parcel Number"), .num 4)]]⟩

/-- Fixture (C2 witness): three CAMA records: keys 1, 3 (unmatched), 4. -/
def dfBC2w : Dataset :=
  ⟨[("PARID"), ("G")],
   [rowOf [(("PARID"), .num 1), (("G"), .num 20)],
    rowOf [(("PARID"), .num 3), (("G"), .num 9)],
    rowOf [(("PARID"), .num 4), (("G"), .num 5)]]⟩

/-- Fixture (C2 witness): the computed result of the comparison. -/
def resC2w : CompareResult :=
  (compare_data_enhanced cfgC2w dfAC2w dfBC2w).getD ⟨[], [], [], []⟩

/-- Fixture (C4): a categorical rule whose false-branch expected value is the
non-numeric string `"xyz"`. -/
def mC4 : CatRule :=
  ⟨("Cooling"), ("HEAT"), ("Central Air"), .num 1, .str ("xyz"), false⟩

/-- Fixture (C5): a sum rule `BGA` against `R1 + R2 + R3` (plus a direct rule
on columns absent from the data, required for the engine to run). -/
def cfgC5 : CompareConfig :=
  { mls_id_col := ("Parcel Number"), cama_id_col := ("PARID"),
    direct := [⟨("D1"), ("D2")⟩],
    sums := [⟨("BGA"), [("R1"), ("R2"), ("R3")]⟩], cats := [],
    tol := NUMERIC_TOLERANCE, skipZero := true }

/-- Fixture (C5): one MLS record, `BGA = 500`. -/
def dfAC5 : Dataset :=
  ⟨[("Parcel Number"), ("BGA")], [rowOf [(("Parcel Number"), .num 1), (("BGA"), .num 500)]]⟩

/-- Fixture (C5): one CAMA record, `R1 = 200`, `R2 = 150`, `R3` null. -/
def dfBC5 : Dataset :=
  ⟨[("PARID"), ("R1"), ("R2"), ("R3")],
   [rowOf [(("PARID"), .num 1), (("R1"), .num 200), (("R2"), .num 150)]]⟩

/-- Fixture (C5 witness): a matched row whose sum-rule side-B fields are all null. -/
def rowC5all : String → Value := rowOf [(("BGA"), .num 500)]

/-- Fixture (C6): direct rule `F` against `G`, skip-zero enabled. -/
def cfgC6t : CompareConfig :=
  { mls_id_col := ("Parcel Number"), cama_id_col := ("PARID"),
    direct := [⟨("F"), ("G")⟩], sums := [], cats := [],
    tol := NUMERIC_TOLERANCE, skipZero := true }

/-- Fixture (C6): the same configuration with skip-zero disabled. -/
def cfgC6f : CompareConfig := { cfgC6t with skipZero := false }

/-- Fixture (C6): one MLS record with `F = 0`. -/
def dfAC6 : Dataset :=
  ⟨[("Parcel Number"), ("F")], [rowOf [(("Parcel Number"), .num 1), (("F"), .num 0)]]⟩

/-- Fixture (C6): one CAMA record with `G = 5`. -/
def dfBC6 : Dataset :=
  ⟨[("PARID"), ("G")], [rowOf [(("PARID"), .num 1), (("G"), .num 5)]]⟩

/-- Fixture (C7): an empty direct-rule list next to a nonempty sum-rule list. -/
def cfgC7 : CompareConfig :=
  { mls_id_col := ("Parcel Number"), cama_id_col := ("PARID"),
    direct := [], sums := [⟨("BGA"), [("R1")]⟩], cats := [],
    tol := NUMERIC_TOLERANCE, skipZero := true }

/-- Fixture (C7): an MLS dataset that does contain the key column. -/
def dfAC7 : Dataset :=
  ⟨[("Parcel Number"), ("BGA")], [rowOf [(("Parcel Number"), .num 1), (("BGA"), .num 500)]]⟩

/-- Fixture (C7): a CAMA dataset that does contain the key column. -/
def dfBC7 : Dataset :=
  ⟨[("PARID"), ("R1")], [rowOf [(("PARID"), .num 1), (("R1"), .num 200)]]⟩

/-- Fixture (C9): a sum rule over the single column `X`. -/
def srC9 : SumRule := ⟨("BGA"), [("X")]⟩

/-- Fixture (C9): side-A value `0`, side-B value the non-numeric string
`"abc"` (present, so the sum is attempted, and NaN-poisoned). -/
def rowC9 : String → Value := rowOf [(("BGA"), .num 0), (("X"), .str ("abc"))]

/-- Fixture (C9 witness): side-A value `500` with the same poisoned side-B. -/
def rowC9w : String → Value := rowOf [(("BGA"), .num 500), (("X"), .str ("abc"))]

/-- Fixture (C10 witness / duplicate detection): four rows, keys 1, 2, 1, 2
with distinguishable payloads. -/
def dfC10 : Dataset :=
  ⟨[("PARID"), ("F")],
   [rowOf [(("PARID"), .num 1), (("F"), .num 10)],
    rowOf [(("PARID"), .num 2), (("F"), .num 20)],
    rowOf [(("PARID"), .num 1), (("F"), .num 30)],
    rowOf [(("PARID"), .num 5), (("F"), .num 40)]]⟩

/-- `qAdd` is addition. -/
theorem qAdd_eq (a b : ℚ) : qAdd a b = a + b := by
  have ha : (a.den : ℚ) ≠ 0 := by positivity
  have hb : (b.den : ℚ) ≠ 0 := by positivity
  rw [qAdd, Rat.divInt_eq_div]
  push_cast
  conv_rhs => rw [← Rat.num_div_den a, ← Rat.num_div_den b]
  rw [div_add_div _ _ ha hb]
  ring_nf

/-- `qSub` is subtraction. -/
theorem qSub_eq (a b : ℚ) : qSub a b = a - b := by
  have ha : (a.den : ℚ) ≠ 0 := by positivity
  have hb : (b.den : ℚ) ≠ 0 := by positivity
  rw [qSub, Rat.divInt_eq_div]
  push_cast
  conv_rhs => rw [← Rat.num_div_den a, ← Rat.num_div_den b]
  rw [div_sub_div _ _ ha hb]
  ring_nf

/-- `qMul` is multiplication. -/
theorem qMul_eq (a b : ℚ) : qMul a b = a * b := by
  have ha : (a.den : ℚ) ≠ 0 := by positivity
  have hb : (b.den : ℚ) ≠ 0 := by positivity
  rw [qMul, Rat.divInt_eq_div]
  push_cast
  conv_rhs => rw [← Rat.num_div_den a, ← Rat.num_div_den b]
  rw [div_mul_div_comm]

/-- `absQ` is the absolute value. -/
theorem absQ_eq (q : ℚ) : absQ q = |q| := by
  rw [absQ]
  split_ifs with h
  · have h2 : Rat.divInt (-q.num) (q.den : Int) = -(Rat.divInt q.num (q.den : Int)) :=
      (Rat.neg_divInt q.num (q.den : Int)).symm
    rw [h2, Rat.num_divInt_den, abs_of_neg (Rat.num_neg.mp h)]
  · rw [abs_of_nonneg (Rat.num_nonneg.mp (not_lt.mp h))]

/-- The embedded relative epsilon is `1e-9`. -/
theorem relEps_eq : relEps = 1 / 1000000000 := by
  rw [relEps, Rat.divInt_eq_div]
  norm_num

/-- The embedded absolute tolerance is `0.01`. -/
theorem NUMERIC_TOLERANCE_eq : NUMERIC_TOLERANCE = 1 / 100 := by
  rw [NUMERIC_TOLERANCE, Rat.divInt_eq_div]
  norm_num

/-- Unfolding `foldRules`: the compared-field names are the marked rules'
side-A columns in order, the mismatches the concatenation of the emitted ones. -/
theorem foldRules_eq {α : Type} (f : α → Bool × Option Mismatch) (name : α → String)
    (rules : List α) (acc : List String × List Mismatch) :
    foldRules f name rules acc =
      (acc.1 ++ (rules.filter (fun r => (f r).1)).map name,
       acc.2 ++ (rules.map (fun r => (f r).2.toList)).flatten) := by
  induction rules generalizing acc with
  | nil => simp [foldRules]
  | cons r rs ih =>
    simp only [foldRules, List.foldl_cons]
    rw [show List.foldl _ _ rs = foldRules f name rs
      (acc.1 ++ (if (f r).1 then [name r] else []), acc.2 ++ (f r).2.toList) from rfl, ih]
    by_cases h : (f r).1 <;> simp [h, List.filter_cons, List.append_assoc]

/-- A direct rule that does not mark its field emits nothing. -/
theorem directOutcome_shape (cols : List String) (skipZero : Bool) (tol : ℚ)
    (recId : Value) (row : String → Value) (r : DirectRule) :
    directOutcome cols skipZero tol recId row r = (false, none)
      ∨ (directOutcome cols skipZero tol recId row r).1 = true := by
  simp only [directOutcome]
  split_ifs <;> simp

/-- A sum rule that does not mark its field emits nothing. -/
theorem sumOutcome_shape (cols : List String) (skipZero : Bool) (tol : ℚ)
    (recId : Value) (row : String → Value) (r : SumRule) :
    sumOutcome cols skipZero tol recId row r = (false, none)
      ∨ (sumOutcome cols skipZero tol recId row r).1 = true := by
  simp only [sumOutcome]
  split_ifs <;> simp

/-- A categorical rule that does not mark its field emits nothing. -/
theorem catOutcome_shape (cols : List String) (tol : ℚ)
    (recId : Value) (row : String → Value) (m : CatRule) :
    catOutcome cols tol recId row m = (false, none)
      ∨ (catOutcome cols tol recId row m).1 = true := by
  simp only [catOutcome]
  split_ifs <;> simp

/-- A direct rule marks its field only when both sides are non-blank. -/
theorem directOutcome_marked_not_blank (cols : List String) (skipZero : Bool) (tol : ℚ)
    (recId : Value) (row : String → Value) (r : DirectRule)
    (h : (directOutcome cols skipZero tol recId row r).1 = true) :
    isBlank (row r.mls_col) = false ∧ isBlank (row r.cama_col) = false := by
  simp only [directOutcome] at h
  split_ifs at h with h1 h2 <;> simp_all

/-- A sum rule marks its field only when side A is non-blank and some side-B
value is non-NA. -/
theorem sumOutcome_marked_not_blank (cols : List String) (skipZero : Bool) (tol : ℚ)
    (recId : Value) (row : String → Value) (r : SumRule)
    (h : (sumOutcome cols skipZero tol recId row r).1 = true) :
    isBlank (row r.mls_col) = false ∧ ∃ c ∈ r.cama_cols, isNA (row c) = false := by
  simp only [sumOutcome] at h
  split_ifs at h <;> simp_all

/-- A categorical rule marks its field only when both sides are non-blank. -/
theorem catOutcome_marked_not_blank (cols : List String) (tol : ℚ)
    (recId : Value) (row : String → Value) (m : CatRule)
    (h : (catOutcome cols tol recId row m).1 = true) :
    isBlank (row m.mls_col) = false ∧ isBlank (row m.cama_col) = false := by
  simp only [catOutcome] at h
  split_ifs at h <;> simp_all

/-- With skip-zero enabled, a zero on either side of a direct rule suppresses
any mismatch. -/
theorem directOutcome_zero_none (cols : List String) (tol : ℚ)
    (recId : Value) (row : String → Value) (r : DirectRule)
    (h0 : toNumericCoerce (row r.mls_col) = some 0 ∨ toNumericCoerce (row r.cama_col) = some 0) :
    (directOutcome cols true tol recId row r).2 = none := by
  simp only [directOutcome]
  split_ifs <;> simp_all

/-- `processBoth` componentwise via `foldRules_eq`. -/
theorem processBoth_eq (cfg : CompareConfig) (cols : List String) (row : String → Value) :
    processBoth cfg cols row =
      ((cfg.direct.filter (fun r => (directOutcome cols cfg.skipZero cfg.tol (row cfg.cama_id_col) row r).1)).map (fun r => r.mls_col)
         ++ (cfg.sums.filter (fun r => (sumOutcome cols cfg.skipZero cfg.tol (row cfg.cama_id_col) row r).1)).map (fun r => r.mls_col)
         ++ (cfg.cats.filter (fun m => (catOutcome cols cfg.tol (row cfg.cama_id_col) row m).1)).map (fun m => m.mls_col),
       (cfg.direct.map (fun r => (directOutcome cols cfg.skipZero cfg.tol (row cfg.cama_id_col) row r).2.toList)).flatten
         ++ (cfg.sums.map (fun r => (sumOutcome cols cfg.skipZero cfg.tol (row cfg.cama_id_col) row r).2.toList)).flatten
         ++ (cfg.cats.map (fun m => (catOutcome cols cfg.tol (row cfg.cama_id_col) row m).2.toList)).flatten) := by
  simp only [processBoth]
  rw [foldRules_eq, foldRules_eq, foldRules_eq]
  simp [List.append_assoc]

/-- Concatenation of empty blocks is empty. -/
theorem flatten_eq_nil_of {α β : Type} (l : List α) (g : α → List β)
    (h : ∀ a ∈ l, g a = []) : (l.map g).flatten = [] := by
  induction l with
  | nil => simp
  | cons a l ih =>
    simp only [List.map_cons, List.flatten_cons, h a (by simp)]
    simp only [List.nil_append]
    exact ih (fun x hx => h x (by simp [hx]))

/-- A matched row with no compared fields emits no mismatches. -/
theorem processBoth_nil (cfg : CompareConfig) (cols : List String) (row : String → Value)
    (h : (processBoth cfg cols row).1 = []) : (processBoth cfg cols row).2 = [] := by
  rw [processBoth_eq] at h ⊢
  simp only [List.append_eq_nil, List.map_eq_nil_iff, List.filter_eq_nil_iff] at h
  obtain ⟨⟨hd, hs⟩, hc⟩ := h
  refine List.append_eq_nil.mpr ⟨List.append_eq_nil.mpr ⟨?_, ?_⟩, ?_⟩
  · exact flatten_eq_nil_of _ _ (fun r hr => by
      rcases directOutcome_shape cols cfg.skipZero cfg.tol (row cfg.cama_id_col) row r with hsh | hsh
      · simp [hsh]
      · exact absurd hsh (by simpa using hd r hr))
  · exact flatten_eq_nil_of _ _ (fun r hr => by
      rcases sumOutcome_shape cols cfg.skipZero cfg.tol (row cfg.cama_id_col) row r with hsh | hsh
      · simp [hsh]
      · exact absurd hsh (by simpa using hs r hr))
  · exact flatten_eq_nil_of _ _ (fun m hm => by
      rcases catOutcome_shape cols cfg.tol (row cfg.cama_id_col) row m with hsh | hsh
      · simp [hsh]
      · exact absurd hsh (by simpa using hc m hm))

/-- The loop over merged rows, written as per-row contributions in order. -/
theorem compareRows_eq (cfg : CompareConfig) (cols : List String) (rows : List MergedRow) :
    compareRows cfg cols rows =
      { missing_in_cama := (rows.map (fun r => (leftEntry cfg r).toList)).flatten,
        missing_in_mls := (rows.map (fun r => (rightEntry cfg r).toList)).flatten,
        value_mismatches := (rows.map (rowMms cfg cols)).flatten,
        perfect_matches := (rows.map (fun r => (perfEntry cfg cols r).toList)).flatten } := by
  suffices h : ∀ (l : List MergedRow) (acc : CompareResult),
      l.foldl (rowStep cfg cols) acc =
        { missing_in_cama := acc.missing_in_cama ++ (l.map (fun r => (leftEntry cfg r).toList)).flatten,
          missing_in_mls := acc.missing_in_mls ++ (l.map (fun r => (rightEntry cfg r).toList)).flatten,
          value_mismatches := acc.value_mismatches ++ (l.map (rowMms cfg cols)).flatten,
          perfect_matches := acc.perfect_matches ++ (l.map (fun r => (perfEntry cfg cols r).toList)).flatten } by
    rw [compareRows, h]
    rfl
  intro l
  induction l with
  | nil => intro acc; simp
  | cons r rs ih =>
    intro acc
    simp only [List.foldl_cons]
    rw [ih]
    simp [rowStep, List.append_assoc]

/-- Length of per-row optional contributions as a row count. -/
theorem flatten_length_countP {β : Type} (l : List MergedRow) (g : MergedRow → Option β) (p : MergedRow → Bool)
    (h : ∀ r, (g r).isSome = p r) :
    ((l.map (fun r => (g r).toList)).flatten).length = l.countP p := by
  induction l with
  | nil => simp
  | cons r rs ih =>
    have hr := h r
    rcases hg : g r with _ | b <;>
      simp only [hg, Option.isSome] at hr <;>
      simp [List.countP_cons, ih, hg, ← hr]

/-- A merged row contributes a missing-in-CAMA entry exactly in the
`missingInB` bucket. -/
theorem leftEntry_isSome (cfg : CompareConfig) (cols : List String) (row : MergedRow) :
    (leftEntry cfg row).isSome = decide (rowBucket cfg cols row = RowBucket.missingInB) := by
  rcases row with ⟨tag, get⟩
  cases tag <;> simp only [leftEntry, rowBucket] <;> split_ifs <;> simp_all

/-- A merged row contributes a missing-in-MLS entry exactly in the
`missingInA` bucket. -/
theorem rightEntry_isSome (cfg : CompareConfig) (cols : List String) (row : MergedRow) :
    (rightEntry cfg row).isSome = decide (rowBucket cfg cols row = RowBucket.missingInA) := by
  rcases row with ⟨tag, get⟩
  cases tag <;> simp only [rightEntry, rowBucket] <;> split_ifs <;> simp_all

/-- A merged row contributes a perfect-match entry exactly in the `perfect`
bucket. -/
theorem perfEntry_isSome (cfg : CompareConfig) (cols : List String) (row : MergedRow) :
    (perfEntry cfg cols row).isSome = decide (rowBucket cfg cols row = RowBucket.perfect) := by
  rcases row with ⟨tag, get⟩
  cases tag <;> simp only [perfEntry, rowBucket] <;> split_ifs <;> simp_all

/-- A merged row is in the `mismatched` bucket exactly when it contributes at
least one mismatch entry. -/
theorem rowBucket_mismatched_iff (cfg : CompareConfig) (cols : List String) (row : MergedRow) :
    rowBucket cfg cols row = RowBucket.mismatched ↔ rowMms cfg cols row ≠ [] := by
  rcases row with ⟨tag, get⟩
  cases tag <;> simp only [rowMms, rowBucket] <;> split_ifs <;> simp_all

/-- The five bucket counts partition the merged rows. -/
theorem bucketCount_partition (cfg : CompareConfig) (cols : List String) (rows : List MergedRow) :
    bucketCount cfg cols rows RowBucket.missingInB + bucketCount cfg cols rows RowBucket.missingInA
      + bucketCount cfg cols rows RowBucket.mismatched + bucketCount cfg cols rows RowBucket.perfect
      + bucketCount cfg cols rows RowBucket.skipped = rows.length := by
  induction rows with
  | nil => simp [bucketCount]
  | cons r rs ih =>
    simp only [bucketCount, List.countP_cons, List.length_cons] at *
    rcases h : rowBucket cfg cols r <;> simp [h] <;> omega

/-- `compare_data_enhanced` succeeds exactly on the fatal-guard complement,
and then returns the classified merged rows. -/
theorem compare_eq_some_iff (cfg : CompareConfig) (dfA dfB : Dataset) (res : CompareResult) :
    compare_data_enhanced cfg dfA dfB = some res ↔
      (cfg.direct ≠ [] ∧ cfg.mls_id_col ∈ dfA.cols ∧ cfg.cama_id_col ∈ dfB.cols ∧
        res = compareRows cfg (mergedCols cfg dfA dfB) (mergeOuter cfg dfA dfB)) := by
  simp only [compare_data_enhanced]
  split_ifs <;> simp_all [eq_comm]

/-- Lowercasing preserves emptiness. -/
theorem lowerStr_eq_empty_iff (s : String) : lowerStr s = "" ↔ s = "" := by
  constructor
  · intro h
    have h2 : (lowerStr s).data = ("" : String).data := by rw [h]
    have h3 : s.data.map Char.toLower = [] := h2
    have h4 : s.data = [] := List.map_eq_nil_iff.mp h3
    cases s
    simp_all
  · rintro rfl
    rfl

/-- The numeric path of `values_equal`: both sides real means the `np.isclose`
inequality, whose relative term scales with the second argument only. -/
theorem values_equal_num_iff (v1 v2 : Value) (a b tol : ℚ)
    (h1 : toNumericRaise v1 = some (some a)) (h2 : toNumericRaise v2 = some (some b)) :
    (values_equal v1 v2 tol = true ↔ |a - b| ≤ tol + relEps * |b|) := by
  simp [values_equal, h1, h2, qSub_eq, qAdd_eq, qMul_eq, absQ_eq]

/-- The fallback path of `values_equal`: a coercion exception on either side
yields normalized string comparison. -/
theorem values_equal_fallback (v1 v2 : Value) (tol : ℚ)
    (h : toNumericRaise v1 = none ∨ toNumericRaise v2 = none) :
    values_equal v1 v2 tol = decide (strNorm v1 = strNorm v2) := by
  rcases h1 : toNumericRaise v1 with _ | n1 <;> rcases h2 : toNumericRaise v2 with _ | n2 <;>
    simp_all [values_equal]

/-- Both sides NaN compare equal. -/
theorem values_equal_nan_nan (v1 v2 : Value) (tol : ℚ)
    (h1 : toNumericRaise v1 = some none) (h2 : toNumericRaise v2 = some none) :
    values_equal v1 v2 tol = true := by
  simp [values_equal, h1, h2]

/-- Exactly one side NaN compares unequal. -/
theorem values_equal_nan_real (v1 v2 : Value) (b tol : ℚ)
    (h1 : toNumericRaise v1 = some none) (h2 : toNumericRaise v2 = some (some b)) :
    values_equal v1 v2 tol = false := by
  simp [values_equal, h1, h2]

/-- Exactly one side NaN compares unequal (other order). -/
theorem values_equal_real_nan (v1 v2 : Value) (a tol : ℚ)
    (h1 : toNumericRaise v1 = some (some a)) (h2 : toNumericRaise v2 = some none) :
    values_equal v1 v2 tol = false := by
  simp [values_equal, h1, h2]

/-- A non-blank value that does not itself coerce to NaN never equals `null`
under `values_equal`. -/
theorem values_equal_null_right (v : Value) (tol : ℚ)
    (hb : isBlank v = false) (hn : toNumericRaise v ≠ some none) :
    values_equal v Value.null tol = false := by
  rcases v with q | s | _
  · exact values_equal_real_nan _ _ q tol rfl rfl
  · rcases hp : parseNumR s with _ | o
    · have hfb := values_equal_fallback (.str s) .null tol (Or.inl (by simp [toNumericRaise, hp]))
      rw [hfb]
      have hs : stripStr s ≠ "" := by simpa [isBlank] using hb
      have : strNorm (.str s) ≠ "" := by
        simp only [strNorm, isNA, pyStr]
        rw [if_neg (by simp)]
        simpa [lowerStr_eq_empty_iff]
      simp [strNorm, isNA]
      intro hcon
      exact this (by simpa [strNorm, isNA] using hcon)
    · rcases o with _ | q
      · exact absurd (by simp [toNumericRaise, hp]) hn
      · exact values_equal_real_nan _ _ q tol (by simp [toNumericRaise, hp]) rfl
  · simp [isBlank] at hb

/-- NaN logic of the categorical evaluator: with a NaN on either side the
result is a match exactly when both sides are NaN. -/
theorem categorical_match_nan_iff (mls cama : Value) (m : CatRule) (tol : ℚ)
    (h : toNumericCoerce cama = none ∨ toNumericCoerce (categoricalExpected mls m) = none) :
    (categorical_match mls cama m tol = true ↔
      (toNumericCoerce cama = none ∧ toNumericCoerce (categoricalExpected mls m) = none)) := by
  rcases h1 : toNumericCoerce cama with _ | a <;>
    rcases h2 : toNumericCoerce (categoricalExpected mls m) with _ | b <;>
    simp_all [categorical_match]

/-- The `missingInB` bucket is exactly the left-only rows. -/
theorem rowBucket_missingInB_iff (cfg : CompareConfig) (cols : List String) (row : MergedRow) :
    rowBucket cfg cols row = RowBucket.missingInB ↔ row.tag = MergeTag.left_only := by
  rcases row with ⟨tag, get⟩
  cases tag <;> simp only [rowBucket] <;> (try split_ifs) <;> simp_all

/-- The `missingInA` bucket is exactly the right-only rows. -/
theorem rowBucket_missingInA_iff (cfg : CompareConfig) (cols : List String) (row : MergedRow) :
    rowBucket cfg cols row = RowBucket.missingInA ↔ row.tag = MergeTag.right_only := by
  rcases row with ⟨tag, get⟩
  cases tag <;> simp only [rowBucket] <;> (try split_ifs) <;> simp_all

/-- `markDups` over a suffix, with the already-seen keys in `done`: a row of
the suffix is kept exactly when its key occurs at least twice over the whole
list `done ++ rest`. -/
theorem markDups_spec (idCol : String) :
    ∀ (rest done : List (String → Value)),
    ((markDups idCol (done.map (fun r2 => r2 idCol)) rest).filter (fun p => p.2)).map (fun p => p.1)
      = rest.filter (fun r =>
          decide (2 ≤ done.countP (fun r2 => decide (r2 idCol = r idCol))
            + rest.countP (fun r2 => decide (r2 idCol = r idCol)))) := by
  intro rest
  induction rest with
  | nil => intro done; simp [markDups]
  | cons r rs ih =>
    intro done
    have e : (done.map (fun r2 => r2 idCol)) ++ [r idCol]
        = (done ++ [r]).map (fun r2 => r2 idCol) := by simp
    have hmem1 : (r idCol ∈ done.map (fun r2 => r2 idCol))
        ↔ 0 < done.countP (fun r2 => decide (r2 idCol = r idCol)) := by
      rw [List.countP_pos_iff]
      simp [List.mem_map]
    have hmem2 : (r idCol ∈ rs.map (fun r2 => r2 idCol))
        ↔ 0 < rs.countP (fun r2 => decide (r2 idCol = r idCol)) := by
      rw [List.countP_pos_iff]
      simp [List.mem_map]
    have hcons : (r :: rs).countP (fun r2 => decide (r2 idCol = r idCol))
        = rs.countP (fun r2 => decide (r2 idCol = r idCol)) + 1 :=
      List.countP_cons_of_pos _ _ (by simp)
    have step : markDups idCol (done.map (fun r2 => r2 idCol)) (r :: rs)
        = (r, decide (r idCol ∈ done.map (fun r2 => r2 idCol))
              || decide (r idCol ∈ rs.map (fun r2 => r2 idCol)))
          :: markDups idCol ((done ++ [r]).map (fun r2 => r2 idCol)) rs := by
      rw [markDups, e]
    have hrec : ((markDups idCol ((done ++ [r]).map (fun r2 => r2 idCol)) rs).filter (fun p => p.2)).map (fun p => p.1)
        = rs.filter (fun x =>
            decide (2 ≤ done.countP (fun r2 => decide (r2 idCol = x idCol))
              + (r :: rs).countP (fun r2 => decide (r2 idCol = x idCol)))) := by
      rw [ih (done ++ [r])]
      apply List.filter_congr
      intro x hx
      have hcnt : (done ++ [r]).countP (fun r2 => decide (r2 idCol = x idCol))
            + rs.countP (fun r2 => decide (r2 idCol = x idCol))
          = done.countP (fun r2 => decide (r2 idCol = x idCol))
            + (r :: rs).countP (fun r2 => decide (r2 idCol = x idCol)) := by
        rw [List.countP_append, List.countP_cons, List.countP_cons, List.countP_nil]
        ring
      exact decide_eq_decide.mpr (by rw [hcnt])
    rw [step, List.filter_cons]
    by_cases hf : (decide (r idCol ∈ done.map (fun r2 => r2 idCol))
        || decide (r idCol ∈ rs.map (fun r2 => r2 idCol))) = true
    · rw [if_pos hf]
      have hp : decide (2 ≤ done.countP (fun r2 => decide (r2 idCol = r idCol))
          + (r :: rs).countP (fun r2 => decide (r2 idCol = r idCol))) = true := by
        rw [decide_eq_true_eq, hcons]
        simp only [Bool.or_eq_true, decide_eq_true_eq] at hf
        rcases hf with hf | hf
        · have h1 : 1 ≤ done.countP (fun r2 => decide (r2 idCol = r idCol)) := hmem1.mp hf
          have h2 : 1 ≤ rs.countP (fun r2 => decide (r2 idCol = r idCol)) + 1 :=
            Nat.succ_le_succ (Nat.zero_le _)
          exact Nat.add_le_add h1 h2
        · have h1 : 2 ≤ rs.countP (fun r2 => decide (r2 idCol = r idCol)) + 1 :=
            Nat.succ_le_succ (hmem2.mp hf)
          exact Nat.le_trans h1 (Nat.le_add_left _ _)
      rw [List.filter_cons, if_pos hp, List.map_cons, hrec]
    · rw [if_neg hf]
      have hp : ¬ (decide (2 ≤ done.countP (fun r2 => decide (r2 idCol = r idCol))
          + (r :: rs).countP (fun r2 => decide (r2 idCol = r idCol))) = true) := by
        simp only [Bool.or_eq_true, decide_eq_true_eq, not_or] at hf
        have h1 : done.countP (fun r2 => decide (r2 idCol = r idCol)) = 0 :=
          Nat.eq_zero_of_not_pos (fun hpos => hf.1 (hmem1.mpr hpos))
        have h2 : rs.countP (fun r2 => decide (r2 idCol = r idCol)) = 0 :=
          Nat.eq_zero_of_not_pos (fun hpos => hf.2 (hmem2.mpr hpos))
        rw [decide_eq_true_eq, hcons, h1, h2]
        simp
      rw [List.filter_cons, if_neg hp, hrec]

/-- C3 (counterexample): the claim's symmetric formula
`|a-b| <= tol + 1e-9 * max(|a|,|b|)` does not characterize `values_equal`:
at `a = (10^9+1)/10^11`, `b = 0` with the default tolerance `0.01`, the
formula holds, yet `values_equal` returns `false` (numpy's relative term
scales with `|b|` only). -/
theorem c3_counterexample :
    values_equal (Value.num bigRat) (Value.num 0) NUMERIC_TOLERANCE = false
    ∧ |bigRat - (0 : ℚ)| ≤ NUMERIC_TOLERANCE + (1 / 1000000000) * max |bigRat| |(0 : ℚ)| := by
  have hb : bigRat = ((10 ^ 9 + 1 : ℚ) / 10 ^ 11) := by
    rw [bigRat, Rat.divInt_eq_div]
    push_cast
    ring
  constructor
  · decide
  · rw [NUMERIC_TOLERANCE_eq, hb, sub_zero, abs_zero,
      abs_of_nonneg (by positivity : (0 : ℚ) ≤ (10 ^ 9 + 1 : ℚ) / 10 ^ 11),
      max_eq_left (by positivity : (0 : ℚ) ≤ (10 ^ 9 + 1 : ℚ) / 10 ^ 11)]
    norm_num

/-- C3 (amended): for inputs that both coerce to real numbers, the value
comparator returns equal iff `|a - b| <= tolerance + 1e-9 * |b|` — the
relative epsilon scales with the second (CAMA-side) magnitude only, not
with `max(|a|,|b|)`; the absolute tolerance defaults to 0.01
(`NUMERIC_TOLERANCE`). -/
theorem c3_amended (v1 v2 : Value) (a b tol : ℚ)
    (h1 : toNumericRaise v1 = some (some a)) (h2 : toNumericRaise v2 = some (some b)) :
    (values_equal v1 v2 tol = true ↔ |a - b| ≤ tol + (1 / 1000000000) * |b|) := by
  rw [values_equal_num_iff v1 v2 a b tol h1 h2, relEps_eq]

/-- C3 (witness): the amended equivalence instantiated at `100` versus
`100.01` under the default tolerance. -/
theorem c3_witness :
    values_equal (Value.num 100) (Value.num (Rat.divInt 10001 100)) NUMERIC_TOLERANCE = true
      ↔ |(100 : ℚ) - Rat.divInt 10001 100| ≤ NUMERIC_TOLERANCE + (1 / 1000000000) * |Rat.divInt 10001 100| :=
  c3_amended (Value.num 100) (Value.num (Rat.divInt 10001 100)) 100 (Rat.divInt 10001 100)
    NUMERIC_TOLERANCE rfl rfl

/-- C8 (counterexample): `values_equal` is not symmetric: with
`a = (10^9+1)/10^11` and `b = 0` at the default tolerance, `equal(a, b)` is
false but `equal(b, a)` is true, because the relative term uses only the
second argument's magnitude. -/
theorem c8_counterexample :
    values_equal (Value.num bigRat) (Value.num 0) NUMERIC_TOLERANCE = false
    ∧ values_equal (Value.num 0) (Value.num bigRat) NUMERIC_TOLERANCE = true := by
  constructor <;> decide

/-- C8 (amended): the comparator is reflexive for every scalar at any
nonnegative tolerance; symmetry holds when either side raises on coercion
(string fallback), when either side is NaN, and when the two real magnitudes
agree — but not in general (see the counterexample), since the relative
epsilon scales with the second argument only. -/
theorem c8_amended :
    (∀ (x : Value) (tol : ℚ), 0 ≤ tol → values_equal x x tol = true)
    ∧ (∀ (v1 v2 : Value) (tol : ℚ), toNumericRaise v1 = none ∨ toNumericRaise v2 = none →
        values_equal v1 v2 tol = values_equal v2 v1 tol)
    ∧ (∀ (v1 v2 : Value) (tol : ℚ), toNumericRaise v1 = some none ∨ toNumericRaise v2 = some none →
        values_equal v1 v2 tol = values_equal v2 v1 tol)
    ∧ (∀ (v1 v2 : Value) (a b tol : ℚ), toNumericRaise v1 = some (some a) →
        toNumericRaise v2 = some (some b) → |a| = |b| →
        values_equal v1 v2 tol = values_equal v2 v1 tol) := by
  have fb_symm : ∀ (v1 v2 : Value) (tol : ℚ), toNumericRaise v1 = none ∨ toNumericRaise v2 = none →
      values_equal v1 v2 tol = values_equal v2 v1 tol := by
    intro v1 v2 tol h
    rw [values_equal_fallback v1 v2 tol h, values_equal_fallback v2 v1 tol h.symm]
    simp [eq_comm]
  have nan_symm : ∀ (v1 v2 : Value) (tol : ℚ), toNumericRaise v1 = some none →
      values_equal v1 v2 tol = values_equal v2 v1 tol := by
    intro v1 v2 tol h1
    rcases ho : toNumericRaise v2 with _ | n
    · exact fb_symm v1 v2 tol (Or.inr ho)
    · rcases n with _ | b
      · rw [values_equal_nan_nan v1 v2 tol h1 ho, values_equal_nan_nan v2 v1 tol ho h1]
      · rw [values_equal_nan_real v1 v2 b tol h1 ho, values_equal_real_nan v2 v1 b tol ho h1]
  refine ⟨?_, fb_symm, ?_, ?_⟩
  · intro x tol htol
    rcases h : toNumericRaise x with _ | n
    · rw [values_equal_fallback x x tol (Or.inl h)]
      simp
    · rcases n with _ | a
      · exact values_equal_nan_nan x x tol h h
      · rw [values_equal_num_iff x x a a tol h h, sub_self, abs_zero, relEps_eq]
        positivity
  · intro v1 v2 tol h
    rcases h with h | h
    · exact nan_symm v1 v2 tol h
    · exact (nan_symm v2 v1 tol h).symm
  · intro v1 v2 a b tol h1 h2 hab
    have e1 := values_equal_num_iff v1 v2 a b tol h1 h2
    have e2 := values_equal_num_iff v2 v1 b a tol h2 h1
    have hiff : (|a - b| ≤ tol + relEps * |b|) ↔ (|b - a| ≤ tol + relEps * |a|) := by
      rw [abs_sub_comm, hab]
    rw [Bool.eq_iff_iff, e1, e2]
    exact hiff

/-- C8 (witness): reflexivity applied at the string `"q"` with the default
tolerance. -/
theorem c8_witness : values_equal (Value.str ("q")) (Value.str ("q")) NUMERIC_TOLERANCE = true :=
  c8_amended.1 (Value.str ("q")) NUMERIC_TOLERANCE (by rw [NUMERIC_TOLERANCE_eq]; norm_num)

/-- C4 (counterexample): when coercion of both the actual side-B value and
the derived expected value fails, the evaluator does NOT fall back to string
equality of the raw forms: `"abc"` versus the expected `"xyz"` (MLS `"hello"`
does not contain the marker, so the false-branch expected value applies)
returns a match, although the two strings differ. -/
theorem c4_counterexample :
    categorical_match (Value.str ("hello")) (Value.str ("abc")) mC4 NUMERIC_TOLERANCE = true
    ∧ categoricalExpected (Value.str ("hello")) mC4 = Value.str ("xyz")
    ∧ lowerStr (stripStr ("abc")) ≠ lowerStr (stripStr ("xyz")) := by
  refine ⟨?_, ?_, ?_⟩ <;> decide

/-- C4 (amended): in the categorical rule evaluator, when numeric coercion
(`errors='coerce'`) of the actual side-B value or of the derived expected
value fails (yields NaN), the comparison follows NaN logic: it matches
exactly when BOTH coercions fail.  The `except:` string fallback in the
source is unreachable for scalar inputs, and the evaluator is a total
function (it never throws). -/
theorem c4_amended (mls cama : Value) (m : CatRule) (tol : ℚ)
    (h : toNumericCoerce cama = none ∨ toNumericCoerce (categoricalExpected mls m) = none) :
    (categorical_match mls cama m tol = true ↔
      (toNumericCoerce cama = none ∧ toNumericCoerce (categoricalExpected mls m) = none)) :=
  categorical_match_nan_iff mls cama m tol h

/-- C4 (witness): the amended equivalence instantiated at a non-numeric
side-B value. -/
theorem c4_witness :
    categorical_match (Value.str ("x")) (Value.str ("abc")) mC4 NUMERIC_TOLERANCE = true ↔
      (toNumericCoerce (Value.str ("abc")) = none
        ∧ toNumericCoerce (categoricalExpected (Value.str ("x")) mC4) = none) :=
  c4_amended (Value.str ("x")) (Value.str ("abc")) mC4 NUMERIC_TOLERANCE (Or.inl (by decide))

/-- C10: `find_duplicate_ids` returns exactly the rows whose key-column value
occurs in more than one position of the dataset — every copy of a duplicated
key is kept, in order, and no row with a unique key is kept.  (The check is a
pure function of the dataset: it cannot alter the later merge or comparison,
which depend only on their own arguments.) -/
theorem c10_find_duplicate_ids (df : Dataset) (idCol : String) :
    find_duplicate_ids df idCol =
      df.rows.filter (fun r =>
        decide (2 ≤ df.rows.countP (fun r2 => decide (r2 idCol = r idCol)))) := by
  rw [find_duplicate_ids]
  by_cases h : df.rows.isEmpty
  · rw [if_pos h, List.isEmpty_iff.mp h]
    rfl
  · rw [if_neg h]
    have hspec := markDups_spec idCol df.rows []
    simpa using hspec

/-- C10 (witness): the characterization evaluated on a four-row dataset with
keys 1, 2, 1, 5: exactly the two rows with key 1 are reported. -/
theorem c10_witness :
    find_duplicate_ids dfC10 ("PARID") =
      dfC10.rows.filter (fun r =>
        decide (2 ≤ dfC10.rows.countP (fun r2 => decide (r2 ("PARID") = r ("PARID")))))
    ∧ (find_duplicate_ids dfC10 ("PARID")).map (fun r => (r ("PARID"), r ("F")))
        = [(Value.num 1, Value.num 10), (Value.num 1, Value.num 30)] :=
  ⟨c10_find_duplicate_ids dfC10 ("PARID"), by decide⟩

/-- C1 (counterexample): a matched record whose only field pair is `0` versus
`7` with skip-zero enabled is reported as a PerfectMatch with one compared
field — the zero rule suppresses the comparison but not the compared-marking,
so the record does NOT fall outside both buckets as claimed. -/
theorem c1_counterexample :
    cfgC1.skipZero = true
    ∧ (compare_data_enhanced cfgC1 dfAC1 dfBC1).map (fun r => r.value_mismatches.length) = some 0
    ∧ (compare_data_enhanced cfgC1 dfAC1 dfBC1).map
        (fun r => r.perfect_matches.map (fun p => (p.parcelId, p.fieldsCompared))) = some [(Value.num 1, 1)]
    ∧ toNumericCoerce ((dfAC1.rows.headD (fun _ => Value.null)) ("F")) = some 0 := by
  refine ⟨?_, ?_, ?_, ?_⟩ <;> decide

/-- C1 (amended): for direct, sum and categorical rules a field is marked
compared only if the blank rules pass (both sides non-blank; for a sum rule:
side A non-blank and at least one side-B value non-NA).  The zero rule, when
it fires, suppresses the comparison and any mismatch but NOT the
compared-marking.  Consequently a matched record all of whose fields are
blank-suppressed contributes to neither bucket (it is skipped), while a
record with a zero-suppressed non-blank field can become a PerfectMatch. -/
theorem c1_amended :
    (∀ (cols : List String) (skipZero : Bool) (tol : ℚ) (recId : Value)
        (row : String → Value) (r : DirectRule),
       (directOutcome cols skipZero tol recId row r).1 = true →
       isBlank (row r.mls_col) = false ∧ isBlank (row r.cama_col) = false)
    ∧ (∀ (cols : List String) (skipZero : Bool) (tol : ℚ) (recId : Value)
        (row : String → Value) (r : SumRule),
       (sumOutcome cols skipZero tol recId row r).1 = true →
       isBlank (row r.mls_col) = false ∧ ∃ c ∈ r.cama_cols, isNA (row c) = false)
    ∧ (∀ (cols : List String) (tol : ℚ) (recId : Value)
        (row : String → Value) (m : CatRule),
       (catOutcome cols tol recId row m).1 = true →
       isBlank (row m.mls_col) = false ∧ isBlank (row m.cama_col) = false)
    ∧ (∀ (cols : List String) (tol : ℚ) (recId : Value)
        (row : String → Value) (r : DirectRule),
       toNumericCoerce (row r.mls_col) = some 0 ∨ toNumericCoerce (row r.cama_col) = some 0 →
       (directOutcome cols true tol recId row r).2 = none)
    ∧ (∀ (cfg : CompareConfig) (cols : List String) (row : MergedRow),
       row.tag = MergeTag.both → (processBoth cfg cols row.get).1 = [] →
       rowBucket cfg cols row = RowBucket.skipped) := by
  refine ⟨?_, ?_, ?_, ?_, ?_⟩
  · intro cols skipZero tol recId row r h
    exact directOutcome_marked_not_blank cols skipZero tol recId row r h
  · intro cols skipZero tol recId row r h
    exact sumOutcome_marked_not_blank cols skipZero tol recId row r h
  · intro cols tol recId row m h
    exact catOutcome_marked_not_blank cols tol recId row m h
  · intro cols tol recId row r h
    exact directOutcome_zero_none cols tol recId row r h
  · intro cfg cols row htag hnil
    have hm := processBoth_nil cfg cols row.get hnil
    rcases row with ⟨tag, get⟩
    cases htag
    simp [rowBucket, hm, hnil]

/-- C1 (witness): the marking implication applied at a concrete marked direct
rule, and the skipped-row implication at a concrete all-blank matched row. -/
theorem c1_witness :
    (isBlank (rowOf [(("F"), Value.num 2), (("G"), Value.num 3)] ("F")) = false
      ∧ isBlank (rowOf [(("F"), Value.num 2), (("G"), Value.num 3)] ("G")) = false)
    ∧ rowBucket cfgC1 [("PARID"), ("F"), ("G")] ⟨MergeTag.both, rowOf []⟩ = RowBucket.skipped :=
  ⟨c1_amended.1 [("F"), ("G")] true NUMERIC_TOLERANCE (Value.num 1)
      (rowOf [(("F"), Value.num 2), (("G"), Value.num 3)]) ⟨("F"), ("G")⟩ (by decide),
   c1_amended.2.2.2.2 cfgC1 [("PARID"), ("F"), ("G")] ⟨MergeTag.both, rowOf []⟩ rfl (by decide)⟩

/-- C5: the sum rule at `A = 500` against side-B values `[200, 150, null]`
computes the sum `350` (null treated as 0) and emits one mismatch whose
`Difference` is the string `"150.00"`; and for any matched row whose side-B
fields are all null, the rule is skipped entirely — not marked compared and
no mismatch emitted. -/
theorem c5_sum_rule :
    (compare_data_enhanced cfgC5 dfAC5 dfBC5).map
        (fun r => r.value_mismatches.map (fun m => (m.fieldMLS, m.fieldCAMA))) =
      some [(("BGA"), ("SUM(R1, R2, R3)"))]
    ∧ (compare_data_enhanced cfgC5 dfAC5 dfBC5).map
        (fun r => r.value_mismatches.map (fun m => (m.mlsValue, m.camaValue))) =
      some [(Value.num 500, Value.num 350)]
    ∧ (compare_data_enhanced cfgC5 dfAC5 dfBC5).map
        (fun r => r.value_mismatches.map (fun m => m.difference)) =
      some [some ("150.00")]
    ∧ (∀ (cols : List String) (skipZero : Bool) (tol : ℚ) (recId : Value)
        (row : String → Value) (r : SumRule),
        (∀ c ∈ r.cama_cols, isNA (row c) = true) →
        sumOutcome cols skipZero tol recId row r = (false, none)) := by
  refine ⟨by decide, by decide, by decide, ?_⟩
  intro cols skipZero tol recId row r hall
  have hAll : ((r.cama_cols.map row).all fun v => isNA v) = true := by
    simp only [List.all_eq_true, List.mem_map]
    rintro v ⟨c, hc, rfl⟩
    exact hall c hc
  simp only [sumOutcome]
  split_ifs <;> simp_all

/-- C5 (witness): the all-null skip applied at a concrete row with a null
side-B column. -/
theorem c5_witness :
    sumOutcome [("BGA"), ("R1"), ("R2"), ("R3")] true NUMERIC_TOLERANCE (Value.num 1)
      rowC5all ⟨("BGA"), [("R1"), ("R2"), ("R3")]⟩ = (false, none) :=
  c5_sum_rule.2.2.2 [("BGA"), ("R1"), ("R2"), ("R3")] true NUMERIC_TOLERANCE (Value.num 1)
    rowC5all ⟨("BGA"), [("R1"), ("R2"), ("R3")]⟩ (by decide)

/-- C6 (counterexample): with skip-zero enabled and `A = 0` versus `B = 5`,
the field IS counted as compared — the record surfaces as a PerfectMatch
whose compared-field list contains the field — contradicting "the field is
not compared". -/
theorem c6_counterexample :
    (compare_data_enhanced cfgC6t dfAC6 dfBC6).map
        (fun r => r.perfect_matches.map (fun p => p.fieldsList)) = some [[("F")]]
    ∧ (compare_data_enhanced cfgC6t dfAC6 dfBC6).map (fun r => r.value_mismatches.length) = some 0 := by
  constructor <;> decide

/-- C6 (amended): for a direct rule comparing `A = 0` against `B = 5`: with
skipZero true no comparison is performed and no mismatch is emitted, but the
field still counts as compared (the record is reported as a perfect match
with one compared field); with skipZero false a mismatch is emitted whose
`Difference` is the string `"-5.00"` and the record is not a perfect match. -/
theorem c6_amended :
    (compare_data_enhanced cfgC6t dfAC6 dfBC6).map (fun r => r.value_mismatches.length) = some 0
    ∧ (compare_data_enhanced cfgC6t dfAC6 dfBC6).map
        (fun r => r.perfect_matches.map (fun p => (p.parcelId, p.fieldsCompared))) = some [(Value.num 1, 1)]
    ∧ (compare_data_enhanced cfgC6f dfAC6 dfBC6).map
        (fun r => r.value_mismatches.map (fun m => (m.fieldMLS, m.difference))) =
      some [(("F"), some ("-5.00"))]
    ∧ (compare_data_enhanced cfgC6f dfAC6 dfBC6).map (fun r => r.perfect_matches.length) = some 0 := by
  refine ⟨?_, ?_, ?_, ?_⟩ <;> decide

/-- C7 (counterexample): with an empty direct-rule list but a nonempty
sum-rule list and both key columns present, the run still aborts (produces no
outcome tables) — so "aborts exactly when the key column is absent or the
rule set is empty" is wrong: only the direct-rule list counts. -/
theorem c7_counterexample :
    compare_data_enhanced cfgC7 dfAC7 dfBC7 = none
    ∧ cfgC7.sums ≠ []
    ∧ cfgC7.mls_id_col ∈ dfAC7.cols
    ∧ cfgC7.cama_id_col ∈ dfBC7.cols := by
  refine ⟨?_, ?_, ?_, ?_⟩ <;> decide

/-- C7 (amended): the engine aborts with no outcome tables exactly when the
key column is absent from either dataset or the DIRECT-rule list is empty
(sum and categorical rules alone do not prevent the abort); a missing
non-key comparison column is non-fatal: the affected rule is skipped for the
record, unmarked and without a mismatch, and the run proceeds. -/
theorem c7_amended :
    (∀ (cfg : CompareConfig) (dfA dfB : Dataset),
       compare_data_enhanced cfg dfA dfB = none ↔
         (cfg.direct = [] ∨ cfg.mls_id_col ∉ dfA.cols ∨ cfg.cama_id_col ∉ dfB.cols))
    ∧ (∀ (cols : List String) (skipZero : Bool) (tol : ℚ) (recId : Value)
        (row : String → Value) (r : DirectRule),
        r.mls_col ∉ cols ∨ r.cama_col ∉ cols →
        directOutcome cols skipZero tol recId row r = (false, none))
    ∧ (∀ (cols : List String) (skipZero : Bool) (tol : ℚ) (recId : Value)
        (row : String → Value) (r : SumRule),
        r.mls_col ∉ cols ∨ (∃ c ∈ r.cama_cols, c ∉ cols) →
        sumOutcome cols skipZero tol recId row r = (false, none))
    ∧ (∀ (cols : List String) (tol : ℚ) (recId : Value)
        (row : String → Value) (m : CatRule),
        m.mls_col ∉ cols ∨ m.cama_col ∉ cols →
        catOutcome cols tol recId row m = (false, none)) := by
  refine ⟨?_, ?_, ?_, ?_⟩
  · intro cfg dfA dfB
    simp only [compare_data_enhanced]
    split_ifs <;> simp_all
  · intro cols skipZero tol recId row r h
    have hc : ¬ (r.mls_col ∈ cols ∧ r.cama_col ∈ cols) := by
      rcases h with h | h
      · exact fun hb => h hb.1
      · exact fun hb => h hb.2
    simp only [directOutcome]
    rw [if_pos hc]
  · intro cols skipZero tol recId row r h
    by_cases hm : r.mls_col ∈ cols
    · have hcs : ¬ (∀ c ∈ r.cama_cols, c ∈ cols) := by
        rcases h with h | ⟨c, hc, hnc⟩
        · exact absurd hm h
        · exact fun hall => hnc (hall c hc)
      simp only [sumOutcome]
      rw [if_neg (not_not_intro hm), if_pos hcs]
    · simp only [sumOutcome]
      rw [if_pos hm]
  · intro cols tol recId row m h
    rcases h with h | h
    · simp only [catOutcome]
      rw [if_pos h]
    · by_cases hm : m.mls_col ∈ cols
      · simp only [catOutcome]
        rw [if_neg (not_not_intro hm), if_pos h]
      · simp only [catOutcome]
        rw [if_pos hm]

/-- C7 (witness): the abort characterization applied to a configuration with
an empty direct-rule list, and a direct rule skipped on a missing column. -/
theorem c7_witness :
    compare_data_enhanced cfgC7 dfAC7 dfBC7 = none
    ∧ directOutcome [("PARID")] true NUMERIC_TOLERANCE (Value.num 1) (rowOf []) ⟨("F"), ("G")⟩
        = (false, none) :=
  ⟨(c7_amended.1 cfgC7 dfAC7 dfBC7).mpr (Or.inl rfl),
   c7_amended.2.1 [("PARID")] true NUMERIC_TOLERANCE (Value.num 1) (rowOf []) ⟨("F"), ("G")⟩
     (Or.inl (by decide))⟩

/-- C9 (counterexample): a sum whose only side-B value is the non-numeric
string `"abc"` poisons the sum to NaN, and the side-A value `0` is non-blank
— yet with skip-zero enabled (the script's configuration) NO mismatch is
emitted: the zero rule fires first.  So the rule does not "always emit a
mismatch regardless of what the side-A value is". -/
theorem c9_counterexample :
    sumOutcome [("BGA"), ("X")] true NUMERIC_TOLERANCE (Value.num 1) rowC9 srC9 = (true, none)
    ∧ camaSumOf rowC9 srC9.cama_cols = none
    ∧ isBlank (rowC9 srC9.mls_col) = false
    ∧ SKIP_ZERO_VALUES = true := by
  refine ⟨?_, ?_, ?_, ?_⟩ <;> decide

/-- C9 (amended): when the computed sum is the NaN sentinel (some side-B
value present but coercion-poisoned), and side A is non-blank, not itself a
NaN-coercing value, and not suppressed by the zero rule, the sum rule always
emits a mismatch whose reported CAMA value is the NaN (`null`); its
`Difference` is `"N/A"` when side A coerces to a real number and
`"Text difference"` when side A fails numeric coercion. -/
theorem c9_amended (cols : List String) (skipZero : Bool) (tol : ℚ) (recId : Value)
    (row : String → Value) (r : SumRule)
    (hm : r.mls_col ∈ cols) (hcs : ∀ c ∈ r.cama_cols, c ∈ cols)
    (hb : isBlank (row r.mls_col) = false)
    (hna : ((r.cama_cols.map row).all fun v => isNA v) = false)
    (hsum : camaSumOf row r.cama_cols = none)
    (hz : ¬ (skipZero = true ∧ toNumericCoerce (row r.mls_col) = some 0))
    (hnn : toNumericRaise (row r.mls_col) ≠ some none) :
    sumOutcome cols skipZero tol recId row r =
      (true, some
        { parcelId := recId, fieldMLS := r.mls_col, fieldCAMA := sumFieldName r,
          mlsValue := row r.mls_col, camaValue := Value.null,
          difference := some (calculate_difference (row r.mls_col) Value.null),
          expectedCama := none })
    ∧ ((∃ a, toNumericRaise (row r.mls_col) = some (some a)) →
        calculate_difference (row r.mls_col) Value.null = "N/A")
    ∧ (toNumericRaise (row r.mls_col) = none →
        calculate_difference (row r.mls_col) Value.null = "Text difference") := by
  refine ⟨?_, ?_, ?_⟩
  · have hzb : (skipZero && (decide (toNumericCoerce (row r.mls_col) = some 0)
        || decide ((none : Option ℚ) = some 0))) = false := by
      cases hskip : skipZero with
      | false => simp
      | true =>
        rw [hskip] at hz
        simp only [Bool.true_and, Bool.or_eq_false_iff]
        refine ⟨decide_eq_false (fun hc => hz ⟨rfl, hc⟩), by simp⟩
    have hve : values_equal (row r.mls_col) Value.null tol = false :=
      values_equal_null_right (row r.mls_col) tol hb hnn
    simp only [sumOutcome]
    rw [if_neg (not_not_intro hm), if_neg (not_not_intro hcs), if_neg (by simp [hb]),
      if_neg (by simp [hna]), hsum]
    rw [if_neg (by rw [hzb]; simp)]
    simp only []
    rw [if_neg (by simp [hve])]
  · rintro ⟨a, ha⟩
    have h2 : toNumericRaise Value.null = some none := rfl
    simp [calculate_difference, ha, h2]
  · intro h0
    have h2 : toNumericRaise Value.null = some none := rfl
    simp [calculate_difference, h0, h2]

/-- C9 (witness): the amended mismatch applied at side-A value `500` with the
poisoned single-column sum. -/
theorem c9_witness :
    sumOutcome [("BGA"), ("X")] true NUMERIC_TOLERANCE (Value.num 1) rowC9w srC9 =
      (true, some
        { parcelId := Value.num 1, fieldMLS := ("BGA"), fieldCAMA := sumFieldName srC9,
          mlsValue := rowC9w ("BGA"), camaValue := Value.null,
          difference := some (calculate_difference (rowC9w ("BGA")) Value.null),
          expectedCama := none }) :=
  (c9_amended [("BGA"), ("X")] true NUMERIC_TOLERANCE (Value.num 1) rowC9w srC9
    (by decide) (by decide) (by decide) (by decide) (by decide)
    (by intro hc; exact absurd hc.2 (by decide)) (by decide)).1

/-- C2: whenever the engine runs (no fatal config error), every merged row —
left-only, right-only, or matched — falls into exactly one of the five
outcome buckets (the five bucket counts partition the merged rows); the
missing-in-CAMA, missing-in-MLS, and perfect-match tables have exactly one
row per merged row of the corresponding bucket; the mismatch table is the
in-order concatenation of the per-row mismatch lists; and a merged row is in
the `missingInB` / `missingInA` / `mismatched` bucket exactly when it is
left-only / right-only / contributes at least one mismatch. -/
theorem c2_outcome_partition (cfg : CompareConfig) (dfA dfB : Dataset) (res : CompareResult)
    (h : compare_data_enhanced cfg dfA dfB = some res) :
    (bucketCount cfg (mergedCols cfg dfA dfB) (mergeOuter cfg dfA dfB) RowBucket.missingInB
        + bucketCount cfg (mergedCols cfg dfA dfB) (mergeOuter cfg dfA dfB) RowBucket.missingInA
        + bucketCount cfg (mergedCols cfg dfA dfB) (mergeOuter cfg dfA dfB) RowBucket.mismatched
        + bucketCount cfg (mergedCols cfg dfA dfB) (mergeOuter cfg dfA dfB) RowBucket.perfect
        + bucketCount cfg (mergedCols cfg dfA dfB) (mergeOuter cfg dfA dfB) RowBucket.skipped
      = (mergeOuter cfg dfA dfB).length)
    ∧ res.missing_in_cama.length
        = bucketCount cfg (mergedCols cfg dfA dfB) (mergeOuter cfg dfA dfB) RowBucket.missingInB
    ∧ res.missing_in_mls.length
        = bucketCount cfg (mergedCols cfg dfA dfB) (mergeOuter cfg dfA dfB) RowBucket.missingInA
    ∧ res.perfect_matches.length
        = bucketCount cfg (mergedCols cfg dfA dfB) (mergeOuter cfg dfA dfB) RowBucket.perfect
    ∧ res.value_mismatches
        = ((mergeOuter cfg dfA dfB).map (rowMms cfg (mergedCols cfg dfA dfB))).flatten
    ∧ ∀ row ∈ mergeOuter cfg dfA dfB,
        (rowBucket cfg (mergedCols cfg dfA dfB) row = RowBucket.missingInB
            ↔ row.tag = MergeTag.left_only)
        ∧ (rowBucket cfg (mergedCols cfg dfA dfB) row = RowBucket.missingInA
            ↔ row.tag = MergeTag.right_only)
        ∧ (rowBucket cfg (mergedCols cfg dfA dfB) row = RowBucket.mismatched
            ↔ rowMms cfg (mergedCols cfg dfA dfB) row ≠ []) := by
  obtain ⟨-, -, -, hres⟩ := (compare_eq_some_iff cfg dfA dfB res).mp h
  subst hres
  rw [compareRows_eq]
  refine ⟨bucketCount_partition cfg (mergedCols cfg dfA dfB) (mergeOuter cfg dfA dfB),
    ?_, ?_, ?_, rfl, ?_⟩
  · exact flatten_length_countP (mergeOuter cfg dfA dfB) (leftEntry cfg) _
      (leftEntry_isSome cfg (mergedCols cfg dfA dfB))
  · exact flatten_length_countP (mergeOuter cfg dfA dfB) (rightEntry cfg) _
      (rightEntry_isSome cfg (mergedCols cfg dfA dfB))
  · exact flatten_length_countP (mergeOuter cfg dfA dfB) (perfEntry cfg (mergedCols cfg dfA dfB)) _
      (perfEntry_isSome cfg (mergedCols cfg dfA dfB))
  · intro row hrow
    exact ⟨rowBucket_missingInB_iff cfg (mergedCols cfg dfA dfB) row,
      rowBucket_missingInA_iff cfg (mergedCols cfg dfA dfB) row,
      rowBucket_mismatched_iff cfg (mergedCols cfg dfA dfB) row⟩

/-- C2 (witness): the partition count applied to a run with one mismatching
matched key, one blank-skipped matched key, one left-only key and one
right-only key. -/
theorem c2_witness :
    bucketCount cfgC2w (mergedCols cfgC2w dfAC2w dfBC2w) (mergeOuter cfgC2w dfAC2w dfBC2w) RowBucket.missingInB
        + bucketCount cfgC2w (mergedCols cfgC2w dfAC2w dfBC2w) (mergeOuter cfgC2w dfAC2w dfBC2w) RowBucket.missingInA
        + bucketCount cfgC2w (mergedCols cfgC2w dfAC2w dfBC2w) (mergeOuter cfgC2w dfAC2w dfBC2w) RowBucket.mismatched
        + bucketCount cfgC2w (mergedCols cfgC2w dfAC2w dfBC2w) (mergeOuter cfgC2w dfAC2w dfBC2w) RowBucket.perfect
        + bucketCount cfgC2w (mergedCols cfgC2w dfAC2w dfBC2w) (mergeOuter cfgC2w dfAC2w dfBC2w) RowBucket.skipped
      = (mergeOuter cfgC2w dfAC2w dfBC2w).length :=
  (c2_outcome_partition cfgC2w dfAC2w dfBC2w resC2w (by rfl)).1
